import Mathlib

/-!
A shallow embedding of `src/adapter.js` of the
`node-slack-interactive-messages` repository: the constraint-based
callback registry, the matcher, the registration API and the
dispatch/response-race engine of `SlackMessageAdapter`.

JavaScript values that the adapter inspects only through type tests and
truthiness are modelled by the inductive `JSVal`.  Promises are modelled
by `PromiseSpec`, a description of when (in milliseconds) and how a
deferred value settles.  `promiseTimeout` and its timeout error code live
in `src/util.js`, which is not part of the sources; per the spec
(§4.5 step 5, §5) it races the deferred value against a timer of
`syncResponseTimeout` milliseconds, the timer rejection being the unique
carrier of the `PROMISE_TIMEOUT` code, and ties resolve in favour of the
deferred value.  Everything else is translated directly from
`src/adapter.js`.
-/

/-- A JavaScript value as the adapter observes it: through `isString`,
truthiness, and strict equality.  `obj` stands for any plain object and
`func` for any function value. -/
inductive JSVal where
  | undef
  | null
  | bool (b : Bool)
  | num (n : Int)
  | str (s : String)
  | obj
  | func
deriving DecidableEq, Repr

/-- JavaScript truthiness of a `JSVal`. -/
def JSVal.truthy : JSVal → Bool
  | .undef => false
  | .null => false
  | .bool b => b
  | .num n => n != 0
  | .str s => s != ""
  | .obj => true
  | .func => true

/-- `lodash.isstring` on a `JSVal`. -/
def JSVal.isString : JSVal → Bool
  | .str _ => true
  | _ => false

/-- Truthiness of a possibly-undefined string property (absent and the
empty string are both falsy). -/
def strTruthy : Option String → Bool
  | none => false
  | some s => s != ""

/-- The value stored in the `callbackId` field of a constraints object:
a string, a RegExp (modelled by its `test` predicate on strings), or any
other JavaScript value, of which the matcher and validator only ever
observe the truthiness. -/
inductive CallbackIdVal where
  | str (s : String)
  | regex (test : String → Bool)
  | other (truthy : Bool)

/-- Truthiness of the `callbackId` field (`constraints.callbackId &&`):
absent/undefined and the empty string are falsy, RegExp objects truthy. -/
def callbackIdTruthy : Option CallbackIdVal → Bool
  | none => false
  | some (.str s) => s != ""
  | some (.regex _) => true
  | some (.other b) => b

/-- `isString(constraints.callbackId)`. -/
def callbackIdIsString : Option CallbackIdVal → Bool
  | some (.str _) => true
  | _ => false

/-- `isRegExp(constraints.callbackId)`. -/
def callbackIdIsRegExp : Option CallbackIdVal → Bool
  | some (.regex _) => true
  | _ => false

/-- The canonical matching-constraints record produced by
`formatMatchingConstraints`: `callbackId`, `type` and `unfurl`
properties, each possibly absent.  For `unfurl` only the presence of the
property (the JavaScript `in` operator) and the truthiness of its value
matter, so it is modelled as `Option Bool`. -/
structure Constraints where
  callbackId : Option CallbackIdVal
  type : Option String
  unfurl : Option Bool

/-- One element of `payload.actions`: an object with a `type` field. -/
structure PayloadAction where
  type : Option String
deriving DecidableEq, Repr

/-- The parsed inbound payload, restricted to the fields the adapter
reads: `callback_id`, `actions`, `response_url`, `is_app_unfurl` and
`type`. -/
structure Payload where
  callback_id : Option String
  actions : List PayloadAction
  response_url : Option String
  is_app_unfurl : JSVal
  type : Option String

/-- How a rejected or resolved promise settles. -/
inductive PromiseOutcome where
  | resolve (v : JSVal)
  | reject
deriving DecidableEq, Repr

/-- A deferred value, described by the wall-clock time (milliseconds
after the handler invocation) at which it settles — `none` meaning it
never settles — and the outcome with which it settles. -/
structure PromiseSpec where
  settle : Option Nat
  outcome : PromiseOutcome
deriving DecidableEq, Repr

/-- What a handler invocation does: raise synchronously, return a
concrete (non-deferred) value, or return a deferred value. -/
inductive HandlerResult where
  | throws
  | value (v : JSVal)
  | promise (p : PromiseSpec)

/-- A registered handler: invoked with the payload and with the fact of
whether a `respond` function was created (i.e. whether the payload
carried a truthy `response_url`). -/
abbrev Handler := Payload → Bool → HandlerResult

/-- An entry of the callback registry: `[constraints, callbackFn]`. -/
abbrev CallbackEntry := Constraints × Handler

/-- The adapter state fixed at construction plus its append-only
callback registry.  The `axios` client is an external collaborator and
is not modelled. -/
structure SlackMessageAdapter where
  verificationToken : String
  syncResponseTimeout : Nat
  lateResponseFallbackEnabled : Bool
  callbacks : List CallbackEntry

/-- The errors the registration API and the constructor can throw.  All
are `TypeError`s in the source; the constructors record which message. -/
inductive AdapterError where
  /-- "Callback ID cannot be undefined or null" -/
  | callbackIdAbsent
  /-- "Callback ID must be a string or RegExp" -/
  | callbackIdWrongType
  /-- "Type must be select, button, or dialog_submission" -/
  | invalidActionType
  /-- "callback must be a function" -/
  | callbackNotFunction
  /-- "SlackMessageAdapter needs a verification token" -/
  | missingVerificationToken
  /-- "syncResponseTimeout must be between 1 and 3000" -/
  | timeoutOutOfRange
deriving DecidableEq, Repr

/-- `new SlackMessageAdapter(verificationToken, {syncResponseTimeout,
lateResponseFallbackEnabled})`: rejects a non-string token, then an
out-of-range timeout, otherwise stores the configuration with an empty
callback registry. -/
def createAdapter (verificationToken : JSVal) (syncResponseTimeout : Int)
    (lateResponseFallbackEnabled : Bool) : Except AdapterError SlackMessageAdapter :=
  match verificationToken with
  | .str tok =>
    if syncResponseTimeout > 3000 || syncResponseTimeout < 1 then
      .error .timeoutOutOfRange
    else
      .ok { verificationToken := tok
            syncResponseTimeout := syncResponseTimeout.toNat
            lateResponseFallbackEnabled := lateResponseFallbackEnabled
            callbacks := [] }
  | _ => .error .missingVerificationToken

/-- The argument accepted by `action`/`options`: `undefined`/`null`, a
bare string, a RegExp, some other non-object primitive, or a structured
constraints object. -/
inductive MatchingConstraintsArg where
  | undef
  | null
  | str (s : String)
  | regex (test : String → Bool)
  | otherPrim (truthy : Bool)
  | obj (c : Constraints)

/-- `formatMatchingConstraints`: throws on `undefined`/`null`, wraps a
non-plain-object input as `{callbackId: input}`, shallow-copies a plain
object. -/
def formatMatchingConstraints : MatchingConstraintsArg → Except AdapterError Constraints
  | .undef => .error .callbackIdAbsent
  | .null => .error .callbackIdAbsent
  | .str s => .ok { callbackId := some (.str s), type := none, unfurl := none }
  | .regex t => .ok { callbackId := some (.regex t), type := none, unfurl := none }
  | .otherPrim b => .ok { callbackId := some (.other b), type := none, unfurl := none }
  | .obj c => .ok c

/-- `validateConstraints`: a truthy `callbackId` that is neither a
string nor a RegExp is rejected.  `none` is the JavaScript `false`
("validation succeeded"). -/
def validateConstraints (c : Constraints) : Option AdapterError :=
  if callbackIdTruthy c.callbackId &&
      !(callbackIdIsString c.callbackId || callbackIdIsRegExp c.callbackId) then
    some .callbackIdWrongType
  else
    none

/-- `validateActionConstraints`: a truthy `type` outside
select/button/dialog_submission is rejected. -/
def validateActionConstraints (c : Constraints) : Option AdapterError :=
  if strTruthy c.type &&
      !(c.type == some "select" || c.type == some "button" ||
        c.type == some "dialog_submission") then
    some .invalidActionType
  else
    none

/-- The `callback` argument of a registration call: a function
(modelled by its behaviour) or any non-function value. -/
inductive CallbackArg where
  | func (h : Handler)
  | notFunc

/-- Outcome of a registration call on a mutable adapter: the thrown
error, if any, together with the adapter state after the call (the
source mutates `this.callbacks` in place and returns `this`). -/
structure RegisterOutcome where
  error : Option AdapterError
  adapter : SlackMessageAdapter

/-- `registerCallback`: throws if the callback is not a function,
otherwise appends `[constraints, callback]` to the registry. -/
def SlackMessageAdapter.registerCallback (a : SlackMessageAdapter)
    (constraints : Constraints) (cb : CallbackArg) : RegisterOutcome :=
  match cb with
  | .notFunc => { error := some .callbackNotFunction, adapter := a }
  | .func h =>
    { error := none
      adapter := { a with callbacks := a.callbacks ++ [(constraints, h)] } }

/-- `SlackMessageAdapter.action`: normalize the constraints, run the
general validator then (via `||`) the action-specific validator, throw
the first error, else register. -/
def SlackMessageAdapter.action (a : SlackMessageAdapter)
    (matchingConstraints : MatchingConstraintsArg) (cb : CallbackArg) : RegisterOutcome :=
  match formatMatchingConstraints matchingConstraints with
  | .error e => { error := some e, adapter := a }
  | .ok actionConstraints =>
    match validateConstraints actionConstraints with
    | some e => { error := some e, adapter := a }
    | none =>
      match validateActionConstraints actionConstraints with
      | some e => { error := some e, adapter := a }
      | none => a.registerCallback actionConstraints cb

/-- `SlackMessageAdapter.options`: like `action` but only the general
validator runs. -/
def SlackMessageAdapter.options (a : SlackMessageAdapter)
    (matchingConstraints : MatchingConstraintsArg) (cb : CallbackArg) : RegisterOutcome :=
  match formatMatchingConstraints matchingConstraints with
  | .error e => { error := some e, adapter := a }
  | .ok optionsConstraints =>
    match validateConstraints optionsConstraints with
    | some e => { error := some e, adapter := a }
    | none => a.registerCallback optionsConstraints cb

/-- `RegExp.prototype.test` coerces its argument to a string;
`undefined` becomes the string "undefined". -/
def jsToString : Option String → String
  | none => "undefined"
  | some s => s

/-- The callbackId filter of `matchCallback`: skipped when
`constraints.callbackId` is falsy; a string must equal
`payload.callback_id` exactly; a RegExp must `test` it. -/
def passesCallbackId (cid : Option CallbackIdVal) (payload_callback_id : Option String) : Bool :=
  if callbackIdTruthy cid then
    match cid with
    | some (.str s) => payload_callback_id == some s
    | some (.regex t) => t (jsToString payload_callback_id)
    | _ => true
  else
    true

/-- The type filter of `matchCallback`
(`action && constraints.type && constraints.type !== action.type`):
vacuous when the payload carries no first action or the constraint
`type` is falsy. -/
def passesType (ctype : Option String) (act : Option PayloadAction) : Bool :=
  match act with
  | none => true
  | some action => !(strTruthy ctype && !(ctype == action.type))

/-- The unfurl filter of `matchCallback`: enforced only when the
`unfurl` property is present on the constraints
(the JavaScript `in` operator); requires the constraint truthiness to
agree with the truthiness of `payload.is_app_unfurl`. -/
def passesUnfurl (unfurl : Option Bool) (is_app_unfurl : JSVal) : Bool :=
  match unfurl with
  | none => true
  | some u => !((u && !is_app_unfurl.truthy) || (!u && is_app_unfurl.truthy))

/-- The predicate of the `Array.prototype.find` call in
`matchCallback`: all three filters must pass. -/
def constraintMatches (c : Constraints) (payload : Payload) : Bool :=
  passesCallbackId c.callbackId payload.callback_id &&
  passesType c.type payload.actions.head? &&
  passesUnfurl c.unfurl payload.is_app_unfurl

/-- `matchCallback`: the first registered entry whose constraints are
satisfied by the payload. -/
def SlackMessageAdapter.matchCallback (a : SlackMessageAdapter) (payload : Payload) :
    Option CallbackEntry :=
  a.callbacks.find? (fun e => constraintMatches e.1 payload)

/-- `if (payload.response_url)`: whether a `respond` function is
created for this payload. -/
def respondAvailable (payload : Payload) : Bool :=
  strTruthy payload.response_url

/-- The fixed generic error string returned when the handler promise
rejects before the deadline. -/
def genericErrorMessage : String :=
  "An error occurred. Please report this to the app developer."

/-- The `content` of a dispatch result: a plain string, or a promise
(`contentConsideringTimeout`, or the original handler promise). -/
inductive Content where
  | str (s : String)
  | deferred (p : PromiseSpec)
deriving DecidableEq, Repr

/-- `{status, content}` as returned by `dispatch`; `content` is absent
on the synchronous-throw path. -/
structure DispatchResult where
  status : Nat
  content : Option Content
deriving DecidableEq, Repr

/-- The detached continuation `callbackResult.then(respond).catch(...)`
that `dispatch` may schedule past the synchronous response. -/
inductive LateEffect where
  | noneScheduled
  | scheduled (p : PromiseSpec)
deriving DecidableEq, Repr

/-- The value (if any) a scheduled late continuation eventually posts
to the `response_url` via `respond`: the resolved value when the
original promise eventually resolves; nothing when it rejects (the
failure is only logged) or never settles. -/
def LateEffect.delivers : LateEffect → Option JSVal
  | .noneScheduled => none
  | .scheduled p =>
    match p.settle, p.outcome with
    | some _, .resolve v => some v
    | _, _ => none

/-- Everything observable about one `dispatch` call: the returned
`{status, content}` and the scheduled late continuation. -/
structure DispatchOutput where
  result : DispatchResult
  late : LateEffect
deriving DecidableEq, Repr

/-- The default result: "no replacement / submission valid / no
suggestions". -/
def defaultOutput : DispatchOutput :=
  { result := { status := 200, content := some (.str "") }, late := .noneScheduled }

/-- The `PROMISE_TIMEOUT` branch of the `.catch` in `dispatch`: when
fallback is disabled, no `respond` exists, or the payload is a dialog
submission, the caught `callbackResult` itself is returned, so the
content settles exactly as the original promise does; otherwise the
content resolves to the empty string at the deadline and
`callbackResult.then(respond)` is scheduled as a detached
continuation. -/
def dispatchTimeout (a : SlackMessageAdapter) (payload : Payload) (respond : Bool)
    (p : PromiseSpec) : DispatchOutput :=
  if !a.lateResponseFallbackEnabled || !respond || payload.type == some "dialog_submission" then
    { result := { status := 200, content := some (.deferred p) }, late := .noneScheduled }
  else
    { result := { status := 200
                  content := some (.deferred
                    { settle := some a.syncResponseTimeout, outcome := .resolve (.str "") }) }
      late := .scheduled p }

/-- The race of the handler promise against the
`syncResponseTimeout`-millisecond timer (`promiseTimeout`, modelled
from the spec: ties favour the deferred value).  A resolution before
the deadline becomes the content; a rejection before the deadline
becomes the fixed generic error string; otherwise the timer fires
first. -/
def dispatchPromise (a : SlackMessageAdapter) (payload : Payload) (respond : Bool)
    (p : PromiseSpec) : DispatchOutput :=
  match p.settle with
  | some t =>
    if t ≤ a.syncResponseTimeout then
      match p.outcome with
      | .resolve v =>
        { result := { status := 200
                      content := some (.deferred { settle := some t, outcome := .resolve v }) }
          late := .noneScheduled }
      | .reject =>
        { result := { status := 200
                      content := some (.deferred
                        { settle := some t, outcome := .resolve (.str genericErrorMessage) }) }
          late := .noneScheduled }
    else
      dispatchTimeout a payload respond p
  | none => dispatchTimeout a payload respond p

/-- The part of `dispatch` after a successful match: create `respond`
when `payload.response_url` is truthy, invoke the handler, return 500
on a synchronous throw, keep the default result for a falsy return
value, and otherwise feed the (truthy) result through `promiseTimeout`.
A truthy non-promise return value wins the race immediately, so its
content resolves to the value itself at once. -/
def dispatchMatched (a : SlackMessageAdapter) (payload : Payload) (e : CallbackEntry) :
    DispatchOutput :=
  let respond := respondAvailable payload
  match e.2 payload respond with
  | .throws => { result := { status := 500, content := none }, late := .noneScheduled }
  | .value v =>
    if v.truthy then
      { result := { status := 200
                    content := some (.deferred { settle := some 0, outcome := .resolve v }) }
        late := .noneScheduled }
    else
      defaultOutput
  | .promise p => dispatchPromise a payload respond p

/-- `SlackMessageAdapter.dispatch`. -/
def SlackMessageAdapter.dispatch (a : SlackMessageAdapter) (payload : Payload) :
    DispatchOutput :=
  match a.matchCallback payload with
  | none => defaultOutput
  | some e => dispatchMatched a payload e

/-- Fallback eligibility at the timeout, as the spec words it:
`lateResponseFallbackEnabled` is true, the payload carried a (truthy)
`response_url`, and `payload.type` is not `dialog_submission`. -/
def fallbackEligible (a : SlackMessageAdapter) (payload : Payload) : Bool :=
  a.lateResponseFallbackEnabled && respondAvailable payload &&
    !(payload.type == some "dialog_submission")

/-- The timer fires before the handler promise settles: the promise
never settles, or settles strictly after `syncResponseTimeout`
milliseconds. -/
def timerWins (a : SlackMessageAdapter) (p : PromiseSpec) : Prop :=
  p.settle = none ∨ ∃ t, p.settle = some t ∧ a.syncResponseTimeout < t

/-- C3: for every payload for which no registered entry's constraints
are satisfied, `dispatch` returns `{status: 200, content: ''}` without
invoking any handler. -/
theorem dispatch_no_match (a : SlackMessageAdapter) (payload : Payload)
    (h : a.matchCallback payload = none) :
    a.dispatch payload = defaultOutput := by
  unfold SlackMessageAdapter.dispatch
  rw [h]

def c3Adapter : SlackMessageAdapter :=
  { verificationToken := "token"
    syncResponseTimeout := 2500
    lateResponseFallbackEnabled := true
    callbacks := [] }

def c3Payload : Payload :=
  { callback_id := some "pick_color"
    actions := []
    response_url := none
    is_app_unfurl := .undef
    type := none }

/-- Witness for C3 at an adapter with an empty registry. -/
theorem dispatch_no_match_witness :
    c3Adapter.dispatch c3Payload = defaultOutput :=
  dispatch_no_match c3Adapter c3Payload rfl

/-- C4: a handler that raises synchronously yields `{status: 500}` with
no content, whatever the configured timeout and whether or not a
`response_url` is present. -/
theorem dispatch_sync_throw (a : SlackMessageAdapter) (payload : Payload)
    (c : Constraints) (h : Handler)
    (hmatch : a.matchCallback payload = some (c, h))
    (hthrow : h payload (respondAvailable payload) = .throws) :
    a.dispatch payload =
      { result := { status := 500, content := none }, late := .noneScheduled } := by
  unfold SlackMessageAdapter.dispatch
  rw [hmatch]
  simp only [dispatchMatched]
  rw [hthrow]

def c4Handler : Handler := fun _ _ => .throws

def c4Adapter : SlackMessageAdapter :=
  { verificationToken := "token"
    syncResponseTimeout := 2500
    lateResponseFallbackEnabled := true
    callbacks := [({ callbackId := none, type := none, unfurl := none }, c4Handler)] }

def c4Payload : Payload :=
  { callback_id := some "pick_color"
    actions := []
    response_url := some "https://hooks.example.com/r4"
    is_app_unfurl := .undef
    type := none }

/-- Witness for C4: a throwing handler, with a `response_url` present. -/
theorem dispatch_sync_throw_witness :
    c4Adapter.dispatch c4Payload =
      { result := { status := 500, content := none }, late := .noneScheduled } :=
  dispatch_sync_throw c4Adapter c4Payload
    { callbackId := none, type := none, unfurl := none } c4Handler rfl rfl

/-- C8: the unfurl filter always passes when the constraint has no
`unfurl` property; when `unfurl` is explicitly present the filter
passes exactly when the constraint boolean agrees with the truthiness
of `payload.is_app_unfurl`. -/
theorem unfurl_filter_spec (v : JSVal) (b : Bool) :
    passesUnfurl none v = true ∧ passesUnfurl (some b) v = (v.truthy == b) := by
  refine ⟨rfl, ?_⟩
  unfold passesUnfurl
  cases b <;> cases hv : v.truthy <;> simp [hv]

/-- C9: a constraint whose `callbackId` is the empty string passes the
callbackId filter for every payload `callback_id` — the matcher treats
the falsy `""` exactly like an absent `callbackId` — so an entry with
only that constraint matches every payload. -/
theorem empty_callbackId_matches (pcid : Option String) (payload : Payload) :
    passesCallbackId (some (.str "")) pcid = true ∧
    passesCallbackId (some (.str "")) pcid = passesCallbackId none pcid ∧
    constraintMatches { callbackId := some (.str ""), type := none, unfurl := none }
      payload = true := by
  refine ⟨rfl, rfl, ?_⟩
  have hty : passesType (none : Option String) payload.actions.head? = true := by
    cases payload.actions.head? <;> rfl
  unfold constraintMatches
  rw [hty]
  rfl

/-- C10: constructing the adapter fails with the verification-token
`TypeError` whenever the token is not a string — even when the timeout
is also out of range, showing the token check runs first — and a valid
construction stores the token with an empty callback registry. -/
theorem createAdapter_spec (tok : JSVal) (t : Int) (l : Bool) :
    ((∀ s, tok ≠ .str s) → createAdapter tok t l = .error .missingVerificationToken) ∧
    (∀ s, tok = .str s → 1 ≤ t → t ≤ 3000 →
      createAdapter tok t l =
        .ok { verificationToken := s
              syncResponseTimeout := t.toNat
              lateResponseFallbackEnabled := l
              callbacks := [] }) := by
  constructor
  · intro h
    cases tok with
    | undef => rfl
    | null => rfl
    | bool b => rfl
    | num n => rfl
    | str s => exact absurd rfl (h s)
    | obj => rfl
    | func => rfl
  · rintro s rfl h1 h3
    simp only [createAdapter]
    rw [if_neg]
    simp only [Bool.or_eq_true, decide_eq_true_eq, not_or]
    omega

/-- Witness for C10: a numeric token is rejected with the token error
even though the timeout 9999 is also out of range, and a string token
with timeout 2500 constructs the adapter. -/
theorem createAdapter_spec_witness :
    createAdapter (.num 0) 9999 true = .error .missingVerificationToken ∧
    createAdapter (.str "token") 2500 true =
      .ok { verificationToken := "token"
            syncResponseTimeout := 2500
            lateResponseFallbackEnabled := true
            callbacks := [] } := by
  constructor
  · exact (createAdapter_spec (.num 0) 9999 true).1 (fun s h => by cases h)
  · exact (createAdapter_spec (.str "token") 2500 true).2 "token" rfl (by decide) (by decide)

/-- C5: when an entry's constraints match and every earlier-registered
entry's constraints fail, the matcher returns that entry — so with two
or more satisfied entries the first registered one wins — and
`dispatch` proceeds with exactly that entry's handler. -/
theorem matchCallback_first_registered (a : SlackMessageAdapter) (payload : Payload)
    (pre post : List CallbackEntry) (e : CallbackEntry)
    (hcb : a.callbacks = pre ++ e :: post)
    (hpre : ∀ x ∈ pre, constraintMatches x.1 payload = false)
    (he : constraintMatches e.1 payload = true) :
    a.matchCallback payload = some e ∧
    a.dispatch payload = dispatchMatched a payload e := by
  have hm : a.matchCallback payload = some e := by
    unfold SlackMessageAdapter.matchCallback
    rw [hcb, List.find?_append]
    have hnone : pre.find? (fun x => constraintMatches x.1 payload) = none :=
      List.find?_eq_none.mpr (fun x hx => by simp [hpre x hx])
    rw [hnone, Option.none_or]
    exact List.find?_cons_of_pos _ he
  refine ⟨hm, ?_⟩
  unfold SlackMessageAdapter.dispatch
  rw [hm]

def c5Handler1 : Handler := fun _ _ => .value (.str "first")

def c5Handler2 : Handler := fun _ _ => .value (.str "second")

def c5Entry1 : CallbackEntry :=
  ({ callbackId := some (.str "go"), type := none, unfurl := none }, c5Handler1)

def c5Entry2 : CallbackEntry :=
  ({ callbackId := some (.str "go"), type := none, unfurl := none }, c5Handler2)

def c5Adapter : SlackMessageAdapter :=
  { verificationToken := "token"
    syncResponseTimeout := 2500
    lateResponseFallbackEnabled := true
    callbacks := [c5Entry1, c5Entry2] }

def c5Payload : Payload :=
  { callback_id := some "go"
    actions := []
    response_url := none
    is_app_unfurl := .undef
    type := none }

/-- Witness for C5: two registered entries whose constraints are both
satisfied; the matcher returns the first registered one. -/
theorem matchCallback_first_registered_witness :
    c5Adapter.matchCallback c5Payload = some c5Entry1 ∧
    constraintMatches c5Entry2.1 c5Payload = true :=
  ⟨(matchCallback_first_registered c5Adapter c5Payload [] [c5Entry2] c5Entry1 rfl
      (fun x hx => absurd hx (List.not_mem_nil x)) rfl).1,
   rfl⟩

/-- C6: a handler promise that rejects before the timeout fires yields
status 200 — never a 5xx — with content resolving to the fixed generic
error string rather than to any detail of the underlying error. -/
theorem dispatch_async_rejection (a : SlackMessageAdapter) (payload : Payload)
    (c : Constraints) (h : Handler) (t : Nat)
    (hmatch : a.matchCallback payload = some (c, h))
    (hret : h payload (respondAvailable payload) =
      .promise { settle := some t, outcome := .reject })
    (ht : t ≤ a.syncResponseTimeout) :
    a.dispatch payload =
      { result := { status := 200
                    content := some (.deferred
                      { settle := some t, outcome := .resolve (.str genericErrorMessage) }) }
        late := .noneScheduled } := by
  unfold SlackMessageAdapter.dispatch
  rw [hmatch]
  simp only [dispatchMatched]
  rw [hret]
  simp only [dispatchPromise]
  rw [if_pos]
  exact ht

def c6Handler : Handler := fun _ _ => .promise { settle := some 100, outcome := .reject }

def c6Adapter : SlackMessageAdapter :=
  { verificationToken := "token"
    syncResponseTimeout := 2500
    lateResponseFallbackEnabled := true
    callbacks := [({ callbackId := none, type := none, unfurl := none }, c6Handler)] }

def c6Payload : Payload :=
  { callback_id := some "pick_color"
    actions := []
    response_url := some "https://hooks.example.com/r6"
    is_app_unfurl := .undef
    type := none }

/-- Witness for C6: a promise rejecting after 100 ms against a 2500 ms
deadline. -/
theorem dispatch_async_rejection_witness :
    c6Adapter.dispatch c6Payload =
      { result := { status := 200
                    content := some (.deferred
                      { settle := some 100, outcome := .resolve (.str genericErrorMessage) }) }
        late := .noneScheduled } :=
  dispatch_async_rejection c6Adapter c6Payload
    { callbackId := none, type := none, unfurl := none } c6Handler 100 rfl rfl (by decide)

/-- C7: registering via `action` with a truthy constraint `type`
outside select/button/dialog_submission fails — with the
Type-must-be TypeError whenever the general validator passes — and
leaves the registry unchanged: no entry is appended before the
failure. -/
theorem action_invalid_type (a : SlackMessageAdapter) (c : Constraints) (cb : CallbackArg)
    (ty : String) (hty : c.type = some ty) (htruthy : ty ≠ "")
    (hsel : ty ≠ "select") (hbtn : ty ≠ "button") (hdlg : ty ≠ "dialog_submission") :
    ((a.action (.obj c) cb).error.isSome = true ∧
     (a.action (.obj c) cb).adapter = a) ∧
    (validateConstraints c = none →
      (a.action (.obj c) cb).error = some .invalidActionType) := by
  have hact : validateActionConstraints c = some .invalidActionType := by
    unfold validateActionConstraints
    rw [if_pos]
    rw [hty]
    simp [strTruthy, htruthy, hsel, hbtn, hdlg]
  unfold SlackMessageAdapter.action
  simp only [formatMatchingConstraints]
  cases hv : validateConstraints c with
  | some e => simp [hv]
  | none => simp [hv, hact]

def c7Adapter : SlackMessageAdapter :=
  { verificationToken := "token"
    syncResponseTimeout := 2500
    lateResponseFallbackEnabled := true
    callbacks := [] }

def c7Constraints : Constraints :=
  { callbackId := some (.str "pick"), type := some "menu", unfurl := none }

def c7Callback : CallbackArg := .func (fun _ _ => .value .undef)

/-- Witness for C7 at `constraints.type = "menu"`. -/
theorem action_invalid_type_witness :
    (c7Adapter.action (.obj c7Constraints) c7Callback).adapter = c7Adapter ∧
    (c7Adapter.action (.obj c7Constraints) c7Callback).error = some .invalidActionType := by
  have h := action_invalid_type c7Adapter c7Constraints c7Callback "menu" rfl
    (by decide) (by decide) (by decide) (by decide)
  exact ⟨h.1.2, h.2 rfl⟩

/-- C1: when the matched handler returns a deferred value that the
timer beats, an eligible dispatch (fallback enabled, `response_url`
carried, not a dialog submission) answers with content resolving to the
empty string at status 200 and schedules the resolved value to be sent
via `respond`; an ineligible dispatch keeps the original deferred value
as its content, settling only when the handler settles. -/
theorem dispatch_async_timeout (a : SlackMessageAdapter) (payload : Payload)
    (c : Constraints) (h : Handler) (p : PromiseSpec)
    (hmatch : a.matchCallback payload = some (c, h))
    (hret : h payload (respondAvailable payload) = .promise p)
    (hlate : timerWins a p) :
    (fallbackEligible a payload = true →
      a.dispatch payload =
        { result := { status := 200
                      content := some (.deferred
                        { settle := some a.syncResponseTimeout, outcome := .resolve (.str "") }) }
          late := .scheduled p } ∧
      ∀ t v, p = { settle := some t, outcome := .resolve v } →
        (a.dispatch payload).late.delivers = some v) ∧
    (fallbackEligible a payload = false →
      a.dispatch payload =
        { result := { status := 200, content := some (.deferred p) }
          late := .noneScheduled }) := by
  have hd : a.dispatch payload = dispatchTimeout a payload (respondAvailable payload) p := by
    unfold SlackMessageAdapter.dispatch
    rw [hmatch]
    simp only [dispatchMatched]
    rw [hret]
    simp only [dispatchPromise]
    rcases hlate with hnone | ⟨t, hs, hlt⟩
    · rw [hnone]
    · rw [hs]
      simp only []
      rw [if_neg]
      omega
  have hcond : (!a.lateResponseFallbackEnabled || !(respondAvailable payload) ||
      (payload.type == some "dialog_submission")) = !(fallbackEligible a payload) := by
    unfold fallbackEligible
    cases a.lateResponseFallbackEnabled <;> cases hr : respondAvailable payload <;>
      cases hdg : (payload.type == some "dialog_submission") <;> simp [hr, hdg]
  constructor
  · intro he
    have hout : a.dispatch payload =
        { result := { status := 200
                      content := some (.deferred
                        { settle := some a.syncResponseTimeout, outcome := .resolve (.str "") }) }
          late := .scheduled p } := by
      rw [hd]
      unfold dispatchTimeout
      rw [hcond, he]
      simp
    refine ⟨hout, ?_⟩
    rintro t v rfl
    rw [hout]
    rfl
  · intro he
    rw [hd]
    unfold dispatchTimeout
    rw [hcond, he]
    simp

def c1Handler : Handler :=
  fun _ _ => .promise { settle := some 3000, outcome := .resolve (.str "picked red") }

def c1Adapter : SlackMessageAdapter :=
  { verificationToken := "token"
    syncResponseTimeout := 2500
    lateResponseFallbackEnabled := true
    callbacks := [({ callbackId := none, type := none, unfurl := none }, c1Handler)] }

def c1Payload : Payload :=
  { callback_id := some "pick_color"
    actions := []
    response_url := some "https://hooks.example.com/r1"
    is_app_unfurl := .undef
    type := none }

/-- Witness for C1: a promise resolving after 3000 ms against a 2500 ms
deadline on an eligible payload: empty synchronous content, and the
resolved value is delivered late via `respond`. -/
theorem dispatch_async_timeout_witness :
    c1Adapter.dispatch c1Payload =
      { result := { status := 200
                    content := some (.deferred
                      { settle := some 2500, outcome := .resolve (.str "") }) }
        late := .scheduled { settle := some 3000, outcome := .resolve (.str "picked red") } } ∧
    (c1Adapter.dispatch c1Payload).late.delivers = some (.str "picked red") := by
  have h := dispatch_async_timeout c1Adapter c1Payload
    { callbackId := none, type := none, unfurl := none } c1Handler
    { settle := some 3000, outcome := .resolve (.str "picked red") }
    rfl rfl (Or.inr ⟨3000, rfl, by decide⟩)
  have he := h.1 rfl
  exact ⟨he.1, he.2 3000 (.str "picked red") rfl⟩

def c2Handler : Handler := fun _ _ => .value (.str "hello")

def c2Adapter : SlackMessageAdapter :=
  { verificationToken := "token"
    syncResponseTimeout := 2500
    lateResponseFallbackEnabled := true
    callbacks := [({ callbackId := none, type := none, unfurl := none }, c2Handler)] }

def c2Payload : Payload :=
  { callback_id := some "pick_color"
    actions := []
    response_url := none
    is_app_unfurl := .undef
    type := none }

/-- Counterexample to C2 as stated: a matched handler returning the
concrete, non-deferred value "hello" does not yield the default result
`{status: 200, content: ''}` — the truthy value triggers the
content-delivery path and the content resolves to the value itself. -/
theorem dispatch_sync_value_counterexample :
    (c2Adapter.dispatch c2Payload).result ≠
      { status := 200, content := some (Content.str "") } ∧
    c2Adapter.dispatch c2Payload =
      { result := { status := 200
                    content := some (.deferred
                      { settle := some 0, outcome := .resolve (.str "hello") }) }
        late := .noneScheduled } := by
  constructor
  · decide
  · rfl

/-- C2 amended: a concrete return value is ignored — the dispatch
result staying the default `{status: 200, content: ''}` — exactly when
the value is falsy; a truthy concrete value triggers the
content-delivery path, the content resolving immediately to the value
itself. -/
theorem dispatch_sync_value_amended (a : SlackMessageAdapter) (payload : Payload)
    (c : Constraints) (h : Handler) (v : JSVal)
    (hmatch : a.matchCallback payload = some (c, h))
    (hret : h payload (respondAvailable payload) = .value v) :
    (v.truthy = false → a.dispatch payload = defaultOutput) ∧
    (v.truthy = true → a.dispatch payload =
      { result := { status := 200
                    content := some (.deferred { settle := some 0, outcome := .resolve v }) }
        late := .noneScheduled }) := by
  have hd : a.dispatch payload =
      if v.truthy then
        { result := { status := 200
                      content := some (.deferred { settle := some 0, outcome := .resolve v }) }
          late := .noneScheduled }
      else defaultOutput := by
    unfold SlackMessageAdapter.dispatch
    rw [hmatch]
    simp only [dispatchMatched]
    rw [hret]
  constructor
  · intro hv
    rw [hd, hv]
    simp
  · intro hv
    rw [hd, hv]
    simp

/-- Witness for the amended C2: the truthy concrete value "hello"
becomes the eventual content. -/
theorem dispatch_sync_value_amended_witness :
    c2Adapter.dispatch c2Payload =
      { result := { status := 200
                    content := some (.deferred
                      { settle := some 0, outcome := .resolve (.str "hello") }) }
        late := .noneScheduled } :=
  (dispatch_sync_value_amended c2Adapter c2Payload
    { callbackId := none, type := none, unfurl := none } c2Handler (.str "hello")
    rfl rfl).2 rfl
